import Mathlib

/-
Verification development for the media-server core:
  * MediaFrameListenerBridge::onMediaFrame / Reset  (packetization bridge)
  * EventLoop::Send, the send-drain step of EventLoop::Run, and the
    post-exit task drain (event loop)

The definitions below are a shallow embedding of the C++ sources.
Machine integers: DWORD (32-bit) counters that can realistically wrap are
modelled as Nat with an explicit % 2^32; QWORD (64-bit) millisecond clocks
and timestamps are modelled as plain Nat, since 2^64 is unreachable at the
magnitudes the code handles.
-/

namespace StreamServer

/-! ## Packetization bridge: data model -/

/-- MediaFrame::Type. The bridge handles Audio and Video; any other type
(`default:` in the switch) is returned without emitting packets. -/
inductive MediaType where
  | Audio
  | Video
  | Text
deriving DecidableEq, Repr

/-- MediaFrame::RtpPacketization: a (pos, size, prefix-bytes) slice of the
frame that becomes one RTP payload (GetPos / GetSize / GetPrefixData /
GetPrefixLen in the source). -/
structure RtpPacketization where
  pos : Nat
  size : Nat
  prefData : List Nat
deriving DecidableEq, Repr

/-- Modelled from the spec: `RtpPacketization::GetTotalLength()` is declared
in a header not under src/; a descriptor's declared total length is its
prefix length plus its slice size ("Payload = descriptor prefix bytes
parallel-to descriptor-selected slice of the frame"). -/
def RtpPacketization.GetTotalLength (r : RtpPacketization) : Nat :=
  r.prefData.length + r.size

/-- A media frame as seen by onMediaFrame: type, codec id, payload bytes
(GetData/GetLength), source timestamp (GetTimeStamp) and the packetization
descriptor list (GetRtpPacketizationInfo). -/
structure MediaFrame where
  type : MediaType
  codec : Nat
  data : List Nat
  timestamp : Nat
  info : List RtpPacketization
deriving DecidableEq, Repr

/-- Modelled from the spec: `MediaFrame::HasRtpPacketizationInfo()` is
declared in a header not under src/; the spec says a frame carries "a
non-empty list of RtpPacketization descriptors" and "A frame with no
packetization info is dropped silently", so the check is non-emptiness. -/
def MediaFrame.HasRtpPacketizationInfo (f : MediaFrame) : Bool :=
  !f.info.isEmpty

/-- The RTP packet fields produced by the emission loop: SSRC, extended
sequence number (32-bit; the low 16 bits are the wire sequence number),
payload (prefix bytes prepended to the selected slice), wire timestamp
(lastTimestamp * rate, stored in a 32-bit header field) and the mark bit.
The video layer-id annotation (VideoLayerSelector::GetLayerIds) only fills
codec metadata and is outside this model. -/
structure RTPPacket where
  mediaType : MediaType
  codec : Nat
  ssrc : Nat
  extSeqNum : Nat
  payload : List Nat
  timestamp : Nat
  mark : Bool
deriving DecidableEq, Repr

/-- The wire (16-bit) sequence number: low 16 bits of the extended one. -/
def RTPPacket.seqNum (p : RTPPacket) : Nat :=
  p.extSeqNum % 65536

/-- Modelled from the spec: the bridge's `acumulator` is "a sliding-window
byte-rate estimator" whose implementation is not under src/. We record the
update history and read the instant rate as the bytes accumulated over the
1000 ms window ending at the most recent update; no claim depends on the
exact instant value, only on whether the accumulator state changes. -/
structure Acumulator where
  samples : List (Nat × Nat)
deriving DecidableEq, Repr

def Acumulator.Update (a : Acumulator) (now size : Nat) : Acumulator :=
  ⟨(now, size) :: a.samples⟩

def Acumulator.GetInstant (a : Acumulator) : Nat :=
  match a.samples with
  | [] => 0
  | (now, _) :: _ =>
    ((a.samples.filter (fun p => decide (now < p.1 + 1000))).map (fun p => p.2)).sum

/-- The bridge's mutable state (members of MediaFrameListenerBridge).
`extSeqNum` is a DWORD; the timestamp and clock members are QWORDs.
`lastTime` (wall-clock time of the most recent produced packet, per the
spec's data model) is read but not written inside the translation unit
under src/; claims about it quantify over its value. -/
structure BridgeState where
  ssrc : Nat
  extSeqNum : Nat
  firstTimestamp : Nat
  baseTimestamp : Nat
  lastTimestamp : Nat
  lastTime : Nat
  reset : Bool
  numFrames : Nat
  numPackets : Nat
  totalBytes : Nat
  bitrate : Nat
  acumulator : Acumulator
deriving DecidableEq, Repr

/-- Modelled from the spec: `RTPPacket::GetMaxMediaLength()` (the payload
capacity against which a descriptor's total length is checked) is defined
in headers not under src/; the spec only says packets are MTU-sized
buffers, so the capacity is kept as a parameter of the model. -/
structure BridgeConfig where
  maxMediaLength : Nat
deriving DecidableEq, Repr

/-- The per-type RTP timestamp rate multiplier of the switch statement:
audio 48, video 90, anything else returns (no packets). -/
def rateOf : MediaType → Option Nat
  | .Audio => some 48
  | .Video => some 90
  | .Text => none

/-- Modelled from the spec (section 4.2 step 4): `getTimeDiff(lastTime)` is a
tools helper not under src/; the spec reads the adjustment as
`(now_ms - last_time_ms) * rate / 1000 + 1`, so the helper yields the
elapsed wall-clock milliseconds. -/
def getTimeDiff (now lastTime : Nat) : Nat :=
  now - lastTime

/-! ## Packetization bridge: onMediaFrame -/

/-- The per-packet timestamp of lines 139: `baseTimestamp +
(frame.GetTimeStamp() - firstTimestamp)` (pre-rate-multiplication). -/
def frameTimestamp (frame : MediaFrame) (s : BridgeState) : Nat :=
  s.baseTimestamp + (frame.timestamp - s.firstTimestamp)

/-- One emitted RTP packet (lines 125-148): SSRC, the current extSeqNum,
payload = prefix ++ frame bytes [pos, pos+size), wire timestamp
lastTimestamp*rate (32-bit header field), mark iff last descriptor. -/
def buildPacket (frame : MediaFrame) (rate : Nat) (s : BridgeState)
    (rtp : RtpPacketization) (isLast : Bool) : RTPPacket :=
  { mediaType := frame.type
    codec := frame.codec
    ssrc := s.ssrc
    extSeqNum := s.extSeqNum
    payload := rtp.prefData ++ ((frame.data.drop rtp.pos).take rtp.size)
    timestamp := frameTimestamp frame s * rate % 4294967296
    mark := isLast }

/-- The state updates of one emitted packet: `extSeqNum++` (DWORD, wraps at
2^32), `lastTimestamp` set to the per-packet timestamp, `numPackets++`. -/
def emitState (frame : MediaFrame) (s : BridgeState) : BridgeState :=
  { s with
    extSeqNum := (s.extSeqNum + 1) % 4294967296
    lastTimestamp := frameTimestamp frame s
    numPackets := s.numPackets + 1 }

/-- The descriptor loop (lines 119-166). A descriptor whose declared total
length exceeds the payload capacity is skipped (`continue`) before the
sequence number is consumed; the mark bit is true exactly on the last
descriptor (`i+1==info.size()`). Returns the final state and the packets
handed to the listeners, in emission order. -/
def packetize (cfg : BridgeConfig) (frame : MediaFrame) (rate : Nat) :
    List RtpPacketization → BridgeState → BridgeState × List RTPPacket
  | [], s => (s, [])
  | rtp :: rest, s =>
    if cfg.maxMediaLength < rtp.GetTotalLength then
      packetize cfg frame rate rest s
    else
      ((packetize cfg frame rate rest (emitState frame s)).1,
        buildPacket frame rate s rtp rest.isEmpty ::
          (packetize cfg frame rate rest (emitState frame s)).2)

/-- Lines 28-36: consuming an armed reset zeroes firstTimestamp and latches
baseTimestamp to lastTimestamp. This happens before the type switch. -/
def consumeReset (s : BridgeState) : BridgeState :=
  if s.reset then
    { s with firstTimestamp := 0, baseTimestamp := s.lastTimestamp, reset := false }
  else s

/-- Lines 86-96: per-frame statistics (numFrames, totalBytes, accumulator
update, bitrate = instant * 8). -/
def updateStats (s : BridgeState) (now frameSize : Nat) : BridgeState :=
  { s with
    numFrames := s.numFrames + 1
    totalBytes := s.totalBytes + frameSize
    acumulator := s.acumulator.Update now frameSize
    bitrate := (s.acumulator.Update now frameSize).GetInstant * 8 }

/-- Lines 99-108: when no segment is open (firstTimestamp == 0) and a
previous packet exists (lastTime != 0), advance baseTimestamp by the
elapsed time scaled to the RTP rate, plus 1; then open the segment at the
frame's source timestamp. -/
def startSegment (s : BridgeState) (now rate fts : Nat) : BridgeState :=
  if s.firstTimestamp = 0 then
    { (if s.lastTime ≠ 0 then
        { s with baseTimestamp :=
            s.lastTimestamp + (getTimeDiff now s.lastTime) * rate / 1000 + 1 }
      else s) with firstTimestamp := fts }
  else s

/-- MediaFrameListenerBridge::onMediaFrame (lines 20-167), as a function of
the state, the current wall-clock milliseconds (`getTimeMS()`) and the
frame. Returns the new state and the emitted packets. The `frameLength` /
`current` length counters of lines 110-116/149-150 are computed but never
used in the source and are omitted. -/
def onMediaFrame (cfg : BridgeConfig) (s : BridgeState) (now : Nat)
    (frame : MediaFrame) : BridgeState × List RTPPacket :=
  if !frame.HasRtpPacketizationInfo then (s, [])
  else
    match rateOf frame.type with
    | none => (consumeReset s, [])
    | some rate =>
      packetize cfg frame rate frame.info
        (startSegment (updateStats (consumeReset s) now frame.data.length)
          now rate frame.timestamp)

/-- MediaFrameListenerBridge::Reset (lines 169-172): arm the reset latch. -/
def Reset (s : BridgeState) : BridgeState :=
  { s with reset := true }

/-- A run of the bridge: feed a list of (arrival-time, frame) pairs in
order, collecting all packets in emission order. -/
def onMediaFrames (cfg : BridgeConfig) :
    BridgeState → List (Nat × MediaFrame) → BridgeState × List RTPPacket
  | s, [] => (s, [])
  | s, nf :: rest =>
    ((onMediaFrames cfg (onMediaFrame cfg s nf.1 nf.2).1 rest).1,
      (onMediaFrame cfg s nf.1 nf.2).2 ++
        (onMediaFrames cfg (onMediaFrame cfg s nf.1 nf.2).1 rest).2)

/-! ## EventLoop: Send backpressure (EventLoop.cpp lines 193-231) -/

namespace EventLoop

/-- EventLoop::MaxSendingQueueSize = 16*1024. -/
def MaxSendingQueueSize : Nat := 16 * 1024

/-- The backpressure classification `enum class State`. -/
inductive State where
  | Normal
  | Lagging
  | Overflown
deriving DecidableEq, Repr

/-- A SendBuffer entry: host-order ipv4 address, port, and the owned
packet (whose contents do not matter to the queueing policy; we keep an
identifier). -/
structure SendBuffer where
  ipAddr : Nat
  port : Nat
  packetId : Nat
deriving DecidableEq, Repr

/-- The loop state that EventLoop::Send touches: the backpressure `state`
and the outbound `sending` queue. In this sequential model
`size_approx()` is the exact queue length. The Signal() wakeup is not
modelled (it does not affect what is enqueued). -/
structure SendQueueState where
  state : State
  sending : List SendBuffer
deriving DecidableEq, Repr

/-- EventLoop::Send (lines 193-231). Note the three branches of the
source: over the high-water mark the packet is dropped and the state set
to Overflown; above half with Normal state the state becomes Lagging and
the packet is enqueued; below a quarter with non-Normal state the source's
recovery branch (which logs "back to normal") also writes `Lagging`, and
the packet is enqueued; otherwise the packet is just enqueued. -/
def Send (l : SendQueueState) (ipAddr port packetId : Nat) : SendQueueState :=
  if MaxSendingQueueSize < l.sending.length then
    { l with state := .Overflown }
  else if MaxSendingQueueSize / 2 < l.sending.length ∧ l.state = .Normal then
    { state := .Lagging, sending := l.sending ++ [⟨ipAddr, port, packetId⟩] }
  else if l.sending.length < MaxSendingQueueSize / 4 ∧ ¬l.state = .Normal then
    { state := .Lagging, sending := l.sending ++ [⟨ipAddr, port, packetId⟩] }
  else
    { l with sending := l.sending ++ [⟨ipAddr, port, packetId⟩] }

/-! ## EventLoop: the POLLOUT send-drain step (EventLoop.cpp lines 489-523) -/

/-- The errno classification that the drain step distinguishes. -/
inductive Errno where
  | EAGAIN
  | EWOULDBLOCK
  | other
deriving DecidableEq, Repr

/-- Outcome of one sendto call: success, or failure with an errno. -/
inductive SendResult where
  | ok
  | err (e : Errno)
deriving DecidableEq, Repr

/-- What the drain step leaves behind: the retained pending entry (if
any), the remaining queue, and the entries sent / dropped during this
step, in order. -/
structure DrainResult where
  pendingItem : Option SendBuffer
  sending : List SendBuffer
  sent : List SendBuffer
  dropped : List SendBuffer
deriving DecidableEq, Repr

/-- The inner `while (pending)` loop of the POLLOUT branch, with `item`
the current entry and `res k` the outcome of the k-th sendto call. On
failure while state == Normal the loop breaks, retaining the entry only
for EAGAIN/EWOULDBLOCK; on failure in any other state execution falls
through to `pending = sending.try_dequeue(item)`, silently replacing
(dropping) the current entry. -/
def drainGo (st : State) (res : Nat → SendResult) :
    SendBuffer → List SendBuffer → Nat → DrainResult
  | item, queue, k =>
    match res k with
    | .ok =>
      match queue with
      | [] => ⟨none, [], [item], []⟩
      | next :: rest =>
        ⟨(drainGo st res next rest (k + 1)).pendingItem,
          (drainGo st res next rest (k + 1)).sending,
          item :: (drainGo st res next rest (k + 1)).sent,
          (drainGo st res next rest (k + 1)).dropped⟩
    | .err e =>
      if st = .Normal then
        if e = .EAGAIN ∨ e = .EWOULDBLOCK then ⟨some item, queue, [], []⟩
        else ⟨none, queue, [], [item]⟩
      else
        match queue with
        | [] => ⟨none, [], [], [item]⟩
        | next :: rest =>
          ⟨(drainGo st res next rest (k + 1)).pendingItem,
            (drainGo st res next rest (k + 1)).sending,
            (drainGo st res next rest (k + 1)).sent,
            item :: (drainGo st res next rest (k + 1)).dropped⟩

/-- The whole POLLOUT branch: if no entry was pending from the previous
iteration, dequeue one first; then run the send loop. -/
def drainSending (st : State) (res : Nat → SendResult)
    (pending : Option SendBuffer) (queue : List SendBuffer) : DrainResult :=
  match pending with
  | some item => drainGo st res item queue 0
  | none =>
    match queue with
    | [] => ⟨none, [], [], []⟩
    | item :: rest => drainGo st res item rest 0

/-! ## EventLoop: task drain after loop exit (EventLoop.cpp lines 586-598) -/

/-- Observable events of the task drain: running a task's function, then
resolving its completion promise (`set_value`). Tasks are identified by
ids. -/
inductive TaskEvent where
  | run (id : Nat)
  | setValue (id : Nat)
deriving DecidableEq, Repr

/-- The `while (tasks.try_dequeue(task))` drain that runs after the main
poll loop exits (and before Stop()'s join returns): every queued task is
executed and its promise resolved, in FIFO order. -/
def drainPendingTasks : List Nat → List TaskEvent
  | [] => []
  | t :: rest => TaskEvent.run t :: TaskEvent.setValue t :: drainPendingTasks rest

end EventLoop

/-! ## Concrete fixtures used by witnesses and counterexamples -/

/-- A payload capacity comfortably holding the MTU-sized payloads of the
concrete scenarios. -/
def testConfig : BridgeConfig := ⟨1500⟩

/-- A freshly constructed bridge: ext_seq 0, no segment, no prior packet,
reset latch clear, zeroed statistics. -/
def freshBridge : BridgeState :=
  { ssrc := 0x1234
    extSeqNum := 0
    firstTimestamp := 0
    baseTimestamp := 0
    lastTimestamp := 0
    lastTime := 0
    reset := false
    numFrames := 0
    numPackets := 0
    totalBytes := 0
    bitrate := 0
    acumulator := ⟨[]⟩ }

/-- A bridge whose 32-bit sequence counter sits at its maximum value. -/
def wrapBridge : BridgeState :=
  { freshBridge with extSeqNum := 4294967295 }

/-- A bridge right after Reset(): latch armed, previous packet produced at
wall time 100 with pre-rate last_timestamp 3000 (the spec's scenario 3). -/
def resetBridge : BridgeState :=
  { ssrc := 0x1234
    extSeqNum := 4
    firstTimestamp := 1000
    baseTimestamp := 0
    lastTimestamp := 3000
    lastTime := 100
    reset := true
    numFrames := 2
    numPackets := 4
    totalBytes := 1100
    bitrate := 0
    acumulator := ⟨[]⟩ }

/-- A video frame with two empty descriptors (used to look at consecutive
sequence numbers without caring about payloads). -/
def twoDescFrame : MediaFrame :=
  ⟨.Video, 0, [], 0, [⟨0, 0, []⟩, ⟨0, 0, []⟩]⟩

/-- The spec's scenario 1 frame: video, source timestamp 1000, one 500-byte
descriptor. -/
def firstFrame : MediaFrame :=
  ⟨.Video, 1, List.replicate 500 7, 1000, [⟨0, 500, []⟩]⟩

/-- The first frame after the reset of scenario 3: video, timestamp 5000,
one 10-byte descriptor. -/
def resetFrame : MediaFrame :=
  ⟨.Video, 1, List.replicate 10 0, 5000, [⟨0, 10, []⟩]⟩

/-- A frame whose second (and last) descriptor declares 2000 bytes, more
than the 1500-byte capacity: the last descriptor is skipped. -/
def skipFrame : MediaFrame :=
  ⟨.Video, 1, [], 0, [⟨0, 100, []⟩, ⟨0, 2000, []⟩]⟩

/-- A two-descriptor frame all of whose descriptors fit. -/
def markFrame : MediaFrame :=
  ⟨.Video, 1, [], 0, [⟨0, 5, []⟩, ⟨0, 6, []⟩]⟩

/-- A frame whose middle descriptor is oversized and skipped. -/
def gapFrame : MediaFrame :=
  ⟨.Video, 1, [], 0, [⟨0, 10, []⟩, ⟨0, 2000, []⟩, ⟨0, 20, []⟩]⟩

/-- A frame carrying no packetization descriptors at all. -/
def noInfoFrame : MediaFrame :=
  ⟨.Video, 1, [1, 2, 3], 42, []⟩

/-- A stalled send queue sitting exactly at the low-water mark H/4 = 4096:
not yet "drained below the low-water mark". -/
def stalledQueue : List EventLoop.SendBuffer :=
  List.replicate 4096 ⟨0, 0, 0⟩

/-! ## Helper lemmas: the packetization loop -/

theorem emitState_baseTimestamp (f : MediaFrame) (s : BridgeState) :
    (emitState f s).baseTimestamp = s.baseTimestamp := rfl

theorem emitState_firstTimestamp (f : MediaFrame) (s : BridgeState) :
    (emitState f s).firstTimestamp = s.firstTimestamp := rfl

theorem emitState_extSeqNum (f : MediaFrame) (s : BridgeState) :
    (emitState f s).extSeqNum = (s.extSeqNum + 1) % 4294967296 := rfl

theorem packetize_nil_state (cfg : BridgeConfig) (f : MediaFrame) (rate : Nat) :
    ∀ (l : List RtpPacketization) (s : BridgeState),
      (packetize cfg f rate l s).2 = [] → (packetize cfg f rate l s).1 = s := by
  intro l
  induction l with
  | nil => intro s _; rfl
  | cons rtp rest ih =>
    intro s h
    by_cases hc : cfg.maxMediaLength < rtp.GetTotalLength
    · rw [packetize, if_pos hc] at h ⊢
      exact ih s h
    · rw [packetize, if_neg hc] at h
      simp at h

theorem packetize_base_first (cfg : BridgeConfig) (f : MediaFrame) (rate : Nat) :
    ∀ (l : List RtpPacketization) (s : BridgeState),
      (packetize cfg f rate l s).1.baseTimestamp = s.baseTimestamp ∧
      (packetize cfg f rate l s).1.firstTimestamp = s.firstTimestamp := by
  intro l
  induction l with
  | nil => intro s; exact ⟨rfl, rfl⟩
  | cons rtp rest ih =>
    intro s
    by_cases hc : cfg.maxMediaLength < rtp.GetTotalLength
    · rw [packetize, if_pos hc]
      exact ih s
    · rw [packetize, if_neg hc]
      obtain ⟨h1, h2⟩ := ih (emitState f s)
      exact ⟨h1, h2⟩

theorem packetize_lastTimestamp (cfg : BridgeConfig) (f : MediaFrame) (rate : Nat) :
    ∀ (l : List RtpPacketization) (s : BridgeState),
      (packetize cfg f rate l s).2 ≠ [] →
      (packetize cfg f rate l s).1.lastTimestamp
        = s.baseTimestamp + (f.timestamp - s.firstTimestamp) := by
  intro l
  induction l with
  | nil => intro s h; simp [packetize] at h
  | cons rtp rest ih =>
    intro s h
    by_cases hc : cfg.maxMediaLength < rtp.GetTotalLength
    · rw [packetize, if_pos hc] at h ⊢
      exact ih s h
    · rw [packetize, if_neg hc]
      rcases hrest : (packetize cfg f rate rest (emitState f s)).2 with _ | ⟨p, ps⟩
      · have h1 := packetize_nil_state cfg f rate rest (emitState f s) hrest
        rw [h1]
        rfl
      · have h2 := ih (emitState f s) (by rw [hrest]; simp)
        rw [h2, emitState_baseTimestamp, emitState_firstTimestamp]

theorem packetize_extSeq (cfg : BridgeConfig) (f : MediaFrame) (rate : Nat) :
    ∀ (l : List RtpPacketization) (s : BridgeState), s.extSeqNum < 4294967296 →
      ((packetize cfg f rate l s).2.map RTPPacket.extSeqNum
        = (List.range (packetize cfg f rate l s).2.length).map
            (fun i => (s.extSeqNum + i) % 4294967296)) ∧
      (packetize cfg f rate l s).1.extSeqNum
        = (s.extSeqNum + (packetize cfg f rate l s).2.length) % 4294967296 := by
  intro l
  induction l with
  | nil =>
    intro s hs
    constructor
    · rfl
    · simp [packetize, Nat.mod_eq_of_lt hs]
  | cons rtp rest ih =>
    intro s hs
    by_cases hc : cfg.maxMediaLength < rtp.GetTotalLength
    · rw [packetize, if_pos hc]
      exact ih s hs
    · rw [packetize, if_neg hc]
      obtain ⟨ih1, ih2⟩ := ih (emitState f s)
        (by rw [emitState_extSeqNum]; exact Nat.mod_lt _ (by norm_num))
      rw [emitState_extSeqNum] at ih1 ih2
      constructor
      · simp only [List.map_cons, List.length_cons, List.range_succ_eq_map,
          List.map_map, ih1]
        refine List.cons_eq_cons.mpr ⟨?_, ?_⟩
        · show s.extSeqNum = (s.extSeqNum + 0) % 4294967296
          rw [Nat.add_zero, Nat.mod_eq_of_lt hs]
        · apply List.map_congr_left
          intro i _
          show ((s.extSeqNum + 1) % 4294967296 + i) % 4294967296
             = (s.extSeqNum + Nat.succ i) % 4294967296
          rw [Nat.mod_add_mod]
          congr 1
          omega
      · simp only [List.length_cons, ih2, Nat.mod_add_mod]
        congr 1
        omega

theorem packetize_length (cfg : BridgeConfig) (f : MediaFrame) (rate : Nat) :
    ∀ (l : List RtpPacketization) (s : BridgeState),
      (packetize cfg f rate l s).2.length
        = l.countP (fun r => decide (r.GetTotalLength ≤ cfg.maxMediaLength)) := by
  intro l
  induction l with
  | nil => intro s; rfl
  | cons rtp rest ih =>
    intro s
    by_cases hc : cfg.maxMediaLength < rtp.GetTotalLength
    · have hd : decide (rtp.GetTotalLength ≤ cfg.maxMediaLength) = false :=
        decide_eq_false (Nat.not_le.mpr hc)
      rw [packetize, if_pos hc, List.countP_cons, hd]
      simp [ih s]
    · have hd : decide (rtp.GetTotalLength ≤ cfg.maxMediaLength) = true :=
        decide_eq_true (Nat.not_lt.mp hc)
      rw [packetize, if_neg hc, List.countP_cons, hd]
      simp [ih (emitState f s)]

theorem packetize_mark (cfg : BridgeConfig) (f : MediaFrame) (rate : Nat) :
    ∀ (l : List RtpPacketization) (s : BridgeState), l ≠ [] →
      (l.getLast?.all fun r => decide (r.GetTotalLength ≤ cfg.maxMediaLength)) = true →
      ∃ front lastP, (packetize cfg f rate l s).2 = front ++ [lastP] ∧
        lastP.mark = true ∧ ∀ p ∈ front, p.mark = false := by
  intro l
  induction l with
  | nil => intro s h; exact absurd rfl h
  | cons rtp rest ih =>
    intro s _ hfit
    cases rest with
    | nil =>
      have hle : rtp.GetTotalLength ≤ cfg.maxMediaLength := by
        simp [List.getLast?, Option.all] at hfit
        exact hfit
      rw [packetize, if_neg (Nat.not_lt.mpr hle)]
      refine ⟨[], buildPacket f rate s rtp true, ?_, rfl, by simp⟩
      simp [packetize]
    | cons a t =>
      have hfit' : ((a :: t).getLast?.all
          fun r => decide (r.GetTotalLength ≤ cfg.maxMediaLength)) = true := by
        rwa [List.getLast?_cons_cons] at hfit
      by_cases hc : cfg.maxMediaLength < rtp.GetTotalLength
      · rw [packetize, if_pos hc]
        exact ih s (by simp) hfit'
      · rw [packetize, if_neg hc]
        obtain ⟨front, lastP, heq, hmark, hfront⟩ :=
          ih (emitState f s) (by simp) hfit'
        refine ⟨buildPacket f rate s rtp (a :: t).isEmpty :: front, lastP, ?_, hmark, ?_⟩
        · rw [heq]
          rfl
        · intro p hp
          rcases List.mem_cons.mp hp with rfl | hp'
          · rfl
          · exact hfront p hp'

/-! ## Helper lemmas: onMediaFrame and runs -/

theorem consumeReset_extSeqNum (s : BridgeState) :
    (consumeReset s).extSeqNum = s.extSeqNum := by
  unfold consumeReset
  split <;> rfl

theorem updateStats_extSeqNum (s : BridgeState) (now n : Nat) :
    (updateStats s now n).extSeqNum = s.extSeqNum := rfl

theorem startSegment_extSeqNum (s : BridgeState) (now rate fts : Nat) :
    (startSegment s now rate fts).extSeqNum = s.extSeqNum := by
  unfold startSegment
  split
  · split <;> rfl
  · rfl

theorem onMediaFrame_extSeq (cfg : BridgeConfig) (s : BridgeState) (now : Nat)
    (f : MediaFrame) (hs : s.extSeqNum < 4294967296) :
    ((onMediaFrame cfg s now f).2.map RTPPacket.extSeqNum
      = (List.range (onMediaFrame cfg s now f).2.length).map
          (fun i => (s.extSeqNum + i) % 4294967296)) ∧
    (onMediaFrame cfg s now f).1.extSeqNum
      = (s.extSeqNum + (onMediaFrame cfg s now f).2.length) % 4294967296 := by
  unfold onMediaFrame
  cases hinfo : f.HasRtpPacketizationInfo with
  | false =>
    simp only [hinfo, Bool.not_false, if_true]
    exact ⟨rfl, by simp [Nat.mod_eq_of_lt hs]⟩
  | true =>
    simp only [hinfo, Bool.not_true, if_false]
    cases hr : rateOf f.type with
    | none =>
      exact ⟨rfl, by simp [consumeReset_extSeqNum, Nat.mod_eq_of_lt hs]⟩
    | some rate =>
      have hext : (startSegment (updateStats (consumeReset s) now f.data.length)
          now rate f.timestamp).extSeqNum = s.extSeqNum := by
        rw [startSegment_extSeqNum, updateStats_extSeqNum, consumeReset_extSeqNum]
      have h := packetize_extSeq cfg f rate f.info
        (startSegment (updateStats (consumeReset s) now f.data.length) now rate f.timestamp)
        (by rw [hext]; exact hs)
      rw [hext] at h
      exact h

theorem onMediaFrames_extSeq (cfg : BridgeConfig) :
    ∀ (frames : List (Nat × MediaFrame)) (s : BridgeState), s.extSeqNum < 4294967296 →
      ((onMediaFrames cfg s frames).2.map RTPPacket.extSeqNum
        = (List.range (onMediaFrames cfg s frames).2.length).map
            (fun i => (s.extSeqNum + i) % 4294967296)) ∧
      (onMediaFrames cfg s frames).1.extSeqNum
        = (s.extSeqNum + (onMediaFrames cfg s frames).2.length) % 4294967296 := by
  intro frames
  induction frames with
  | nil =>
    intro s hs
    exact ⟨rfl, by simp [onMediaFrames, Nat.mod_eq_of_lt hs]⟩
  | cons nf rest ih =>
    intro s hs
    obtain ⟨h1, h2⟩ := onMediaFrame_extSeq cfg s nf.1 nf.2 hs
    obtain ⟨ih1, ih2⟩ := ih (onMediaFrame cfg s nf.1 nf.2).1
      (by rw [h2]; exact Nat.mod_lt _ (by norm_num))
    rw [h2] at ih1 ih2
    rw [onMediaFrames]
    constructor
    · rw [List.map_append, List.length_append, List.range_add, List.map_append,
        List.map_map, h1, ih1]
      refine congrArg _ ?_
      apply List.map_congr_left
      intro i _
      show ((s.extSeqNum + (onMediaFrame cfg s nf.1 nf.2).2.length) % 4294967296 + i)
          % 4294967296
        = (s.extSeqNum + ((onMediaFrame cfg s nf.1 nf.2).2.length + i)) % 4294967296
      rw [Nat.mod_add_mod]
      congr 1
      omega
    · rw [List.length_append, ih2, Nat.mod_add_mod]
      congr 1
      omega

theorem consumeReset_first_of_reset (s : BridgeState) (h : s.reset = true) :
    (consumeReset s).firstTimestamp = 0 := by
  simp [consumeReset, h]

theorem consumeReset_lastTimestamp (s : BridgeState) :
    (consumeReset s).lastTimestamp = s.lastTimestamp := by
  unfold consumeReset
  split <;> rfl

theorem consumeReset_lastTime (s : BridgeState) :
    (consumeReset s).lastTime = s.lastTime := by
  unfold consumeReset
  split <;> rfl

theorem updateStats_firstTimestamp (s : BridgeState) (now n : Nat) :
    (updateStats s now n).firstTimestamp = s.firstTimestamp := rfl

theorem updateStats_lastTimestamp (s : BridgeState) (now n : Nat) :
    (updateStats s now n).lastTimestamp = s.lastTimestamp := rfl

theorem updateStats_lastTime (s : BridgeState) (now n : Nat) :
    (updateStats s now n).lastTime = s.lastTime := rfl

theorem startSegment_first_of_zero (s : BridgeState) (now rate fts : Nat)
    (h1 : s.firstTimestamp = 0) :
    (startSegment s now rate fts).firstTimestamp = fts := by
  unfold startSegment
  rw [if_pos h1]

theorem startSegment_base_of_zero (s : BridgeState) (now rate fts : Nat)
    (h1 : s.firstTimestamp = 0) (h2 : s.lastTime ≠ 0) :
    (startSegment s now rate fts).baseTimestamp
      = s.lastTimestamp + (getTimeDiff now s.lastTime) * rate / 1000 + 1 := by
  unfold startSegment
  rw [if_pos h1, if_pos h2]

/-- When the frame has packetization info and a supported type, onMediaFrame
is exactly the packetization loop run from the prepared state. -/
theorem onMediaFrame_run (cfg : BridgeConfig) (s : BridgeState) (now : Nat)
    (f : MediaFrame) (rate : Nat) (hinfo : f.HasRtpPacketizationInfo = true)
    (hrate : rateOf f.type = some rate) :
    onMediaFrame cfg s now f
      = packetize cfg f rate f.info
          (startSegment (updateStats (consumeReset s) now f.data.length)
            now rate f.timestamp) := by
  unfold onMediaFrame
  rw [hinfo, hrate]
  rfl

/-- A frame with no packetization info or an unsupported type emits no
packets. -/
theorem onMediaFrame_empty_cases (cfg : BridgeConfig) (s : BridgeState) (now : Nat)
    (f : MediaFrame)
    (h : f.HasRtpPacketizationInfo = false ∨ rateOf f.type = none) :
    (onMediaFrame cfg s now f).2 = [] := by
  unfold onMediaFrame
  rcases h with h | h
  · rw [h]
    rfl
  · cases hinfo : f.HasRtpPacketizationInfo
    · rfl
    · rw [h]
      rfl

/-- The pre-rate timestamp produced for the first frame after a consumed
reset: with a previous packet at lastTime != 0, the new base is
lastTimestamp + (now - lastTime)*rate/1000 + 1, and every packet of that
frame carries exactly this value (the frame opens the segment, so its own
offset is zero). -/
theorem onMediaFrame_after_reset (cfg : BridgeConfig) (s : BridgeState) (now : Nat)
    (f : MediaFrame) (rate : Nat) (hreset : s.reset = true) (hlast : s.lastTime ≠ 0)
    (hrate : rateOf f.type = some rate)
    (hne : (onMediaFrame cfg s now f).2 ≠ []) :
    (onMediaFrame cfg s now f).1.lastTimestamp
      = s.lastTimestamp + (now - s.lastTime) * rate / 1000 + 1 := by
  have hinfo : f.HasRtpPacketizationInfo = true := by
    cases hi : f.HasRtpPacketizationInfo
    · exact absurd (onMediaFrame_empty_cases cfg s now f (Or.inl hi)) hne
    · rfl
  rw [onMediaFrame_run cfg s now f rate hinfo hrate] at hne ⊢
  have h1 : (updateStats (consumeReset s) now f.data.length).firstTimestamp = 0 := by
    rw [updateStats_firstTimestamp, consumeReset_first_of_reset s hreset]
  have h2 : (updateStats (consumeReset s) now f.data.length).lastTime ≠ 0 := by
    rw [updateStats_lastTime, consumeReset_lastTime]
    exact hlast
  rw [packetize_lastTimestamp cfg f rate f.info _ hne,
    startSegment_first_of_zero _ now rate f.timestamp h1,
    startSegment_base_of_zero _ now rate f.timestamp h1 h2,
    updateStats_lastTimestamp, updateStats_lastTime,
    consumeReset_lastTimestamp, consumeReset_lastTime,
    Nat.sub_self, Nat.add_zero, getTimeDiff]

/-! ## Claim C1: consecutive extended sequence numbers -/

/-- C1 (amended): over any run of frames fed to onMediaFrame, any two
consecutively emitted packets carry extended sequence numbers that are
consecutive modulo 2^32 (the counter is a 32-bit DWORD and wraps from
4294967295 to 0; away from the wrap point the later one is exactly the
earlier plus 1). -/
theorem C1_extseq_consecutive (cfg : BridgeConfig) (s : BridgeState)
    (frames : List (Nat × MediaFrame)) (hs : s.extSeqNum < 4294967296) :
    List.Chain' (fun p q => q.extSeqNum = (p.extSeqNum + 1) % 4294967296)
      (onMediaFrames cfg s frames).2 := by
  obtain ⟨hmap, -⟩ := onMediaFrames_extSeq cfg frames s hs
  have h1 : List.Chain' (fun a b => b = (a + 1) % 4294967296)
      ((onMediaFrames cfg s frames).2.map RTPPacket.extSeqNum) := by
    rw [hmap, List.chain'_map]
    cases hK : (onMediaFrames cfg s frames).2.length with
    | zero => simp
    | succ n =>
      rw [List.chain'_range_succ]
      intro m _
      show (s.extSeqNum + Nat.succ m) % 4294967296
          = ((s.extSeqNum + m) % 4294967296 + 1) % 4294967296
      rw [Nat.mod_add_mod]
      rfl
  rw [List.chain'_map] at h1
  exact h1

/-- C1 witness: a fresh bridge fed one two-descriptor frame emits packets
whose consecutive extended sequence numbers satisfy the theorem. -/
theorem C1_extseq_consecutive_w :
    List.Chain' (fun p q => q.extSeqNum = (p.extSeqNum + 1) % 4294967296)
      (onMediaFrames testConfig freshBridge [(0, twoDescFrame)]).2 :=
  C1_extseq_consecutive testConfig freshBridge [(0, twoDescFrame)] (by decide)

/-- C1 counterexample: with the 32-bit counter at 4294967295, the next two
emitted packets carry extended sequence numbers 4294967295 and 0, so the
later one is not the earlier one plus 1 as the claim states. -/
theorem C1_extseq_plus_one_cex :
    ((onMediaFrames testConfig wrapBridge [(0, twoDescFrame)]).2.map
        RTPPacket.extSeqNum = [4294967295, 0])
    ∧ ¬ List.Chain' (fun p q => q.extSeqNum = p.extSeqNum + 1)
        (onMediaFrames testConfig wrapBridge [(0, twoDescFrame)]).2 := by
  constructor
  · decide
  · intro h
    have hl : (onMediaFrames testConfig wrapBridge [(0, twoDescFrame)]).2
        = [⟨.Video, 0, 0x1234, 4294967295, [], 0, false⟩,
           ⟨.Video, 0, 0x1234, 0, [], 0, true⟩] := by decide
    rw [hl] at h
    exact absurd (List.chain'_cons.mp h).1 (by decide)

/-! ## Claim C2: timestamp continuity across a reset -/

/-- C2 counterexample: with the previous packet at t0 = 100,
last_timestamp 3000, and the first post-reset frame arriving at t1 = 120
(video, rate 90), the code produces pre-rate last_timestamp
3000 + (20*90)/1000 + 1 = 3002 (truncating division), while the claim's
ceiling formula 3000 + ceil(20*90/1000) + 1 = 3003 disagrees (the ceiling
is written as (x + 1000 - 1) / 1000). -/
theorem C2_ceil_cex :
    (onMediaFrame testConfig resetBridge 120 resetFrame).1.lastTimestamp = 3002
    ∧ 3002 ≠ resetBridge.lastTimestamp
        + ((120 - resetBridge.lastTime) * 90 + 1000 - 1) / 1000 + 1 := by
  decide

/-- C2 (amended): after Reset(), when the previous packet was produced at
wall time t0 = lastTime > 0 with pre-rate last_timestamp L and the next
frame arrives at t1 >= t0, every packet of that frame carries pre-rate
last_timestamp L + (t1 - t0) * rate / 1000 + 1, with truncating (floor)
integer division and rate 48 for audio, 90 for video. -/
theorem C2_reset_timestamp (cfg : BridgeConfig) (s : BridgeState) (t1 : Nat)
    (f : MediaFrame) (rate : Nat) (hreset : s.reset = true) (hlast : s.lastTime ≠ 0)
    (_ht : s.lastTime ≤ t1) (hrate : rateOf f.type = some rate)
    (hne : (onMediaFrame cfg s t1 f).2 ≠ []) :
    (onMediaFrame cfg s t1 f).1.lastTimestamp
      = s.lastTimestamp + (t1 - s.lastTime) * rate / 1000 + 1 :=
  onMediaFrame_after_reset cfg s t1 f rate hreset hlast hrate hne

/-- C2 witness: the amended formula instantiated at the spec's scenario 3
(t0 = 100, t1 = 120, L = 3000, rate 90). -/
theorem C2_reset_timestamp_w :
    (onMediaFrame testConfig resetBridge 120 resetFrame).1.lastTimestamp
      = resetBridge.lastTimestamp + (120 - resetBridge.lastTime) * 90 / 1000 + 1 :=
  C2_reset_timestamp testConfig resetBridge 120 resetFrame 90 rfl (by decide)
    (by decide) rfl (by decide)

/-! ## Claim C3: send-queue backpressure -/

/-- When none of the three labelled branches applies, Send just appends the
entry, keeping the state. -/
theorem send_enqueue_keep (l : EventLoop.SendQueueState) (ipAddr port packetId : Nat)
    (h1 : ¬ EventLoop.MaxSendingQueueSize < l.sending.length)
    (h2 : ¬ (EventLoop.MaxSendingQueueSize / 2 < l.sending.length ∧ l.state = .Normal))
    (h3 : ¬ (l.sending.length < EventLoop.MaxSendingQueueSize / 4 ∧ ¬l.state = .Normal)) :
    EventLoop.Send l ipAddr port packetId
      = { l with sending := l.sending ++ [⟨ipAddr, port, packetId⟩] } := by
  unfold EventLoop.Send
  rw [if_neg h1, if_neg h2, if_neg h3]

/-- C3 counterexample: in Overflown state with the queue holding exactly
H/4 = 4096 entries (the threshold itself, i.e. not yet drained below the
low-water mark), a Send enqueues its packet instead of dropping it, and
the state is still Overflown. The claim's "drops continue until the queue
drains below H/4" is false: the drop decision only compares the size
against H. -/
theorem C3_backpressure_cex :
    (EventLoop.Send ⟨.Overflown, stalledQueue⟩ 1 2 3).sending
        = stalledQueue ++ [⟨1, 2, 3⟩]
    ∧ (EventLoop.Send ⟨.Overflown, stalledQueue⟩ 1 2 3).state = .Overflown
    ∧ EventLoop.MaxSendingQueueSize / 4 ≤ stalledQueue.length
    ∧ stalledQueue.length ≤ EventLoop.MaxSendingQueueSize := by
  have hlen : stalledQueue.length = 4096 := by
    unfold stalledQueue
    rw [List.length_replicate]
  have h := send_enqueue_keep ⟨.Overflown, stalledQueue⟩ 1 2 3
    (by show ¬ EventLoop.MaxSendingQueueSize < stalledQueue.length
        rw [hlen]
        decide)
    (by show ¬ (EventLoop.MaxSendingQueueSize / 2 < stalledQueue.length
          ∧ EventLoop.State.Overflown = EventLoop.State.Normal)
        rw [hlen]
        decide)
    (by show ¬ (stalledQueue.length < EventLoop.MaxSendingQueueSize / 4
          ∧ ¬ EventLoop.State.Overflown = EventLoop.State.Normal)
        rw [hlen]
        decide)
  refine ⟨?_, ?_, ?_, ?_⟩
  · rw [h]
  · rw [h]
  · rw [hlen]
    decide
  · rw [hlen]
    decide

/-- C3 (amended): Send drops (without enqueuing, forcing state Overflown)
exactly when the approximate queue size exceeds H = MaxSendingQueueSize =
16384, independently of the backpressure state; whenever the size is at
most H the packet is enqueued, even in Overflown state and above the H/4
low-water mark. The low-water mark only relabels the state (and the
source's recovery branch labels it Lagging, not Normal). -/
theorem C3_send_gate (l : EventLoop.SendQueueState) (ipAddr port packetId : Nat) :
    (EventLoop.MaxSendingQueueSize < l.sending.length →
      (EventLoop.Send l ipAddr port packetId).sending = l.sending
        ∧ (EventLoop.Send l ipAddr port packetId).state = .Overflown)
    ∧ (l.sending.length ≤ EventLoop.MaxSendingQueueSize →
      (EventLoop.Send l ipAddr port packetId).sending
        = l.sending ++ [⟨ipAddr, port, packetId⟩]) := by
  constructor
  · intro h
    unfold EventLoop.Send
    rw [if_pos h]
    exact ⟨rfl, rfl⟩
  · intro h
    unfold EventLoop.Send
    rw [if_neg (Nat.not_lt.mpr h)]
    by_cases h2 : EventLoop.MaxSendingQueueSize / 2 < l.sending.length
        ∧ l.state = .Normal
    · rw [if_pos h2]
    · rw [if_neg h2]
      by_cases h3 : l.sending.length < EventLoop.MaxSendingQueueSize / 4
          ∧ ¬l.state = .Normal
      · rw [if_pos h3]
      · rw [if_neg h3]

/-- C3 witness: an empty queue in Overflown state accepts the next Send. -/
theorem C3_send_gate_w :
    (EventLoop.Send ⟨.Overflown, []⟩ 1 2 3).sending = [] ++ [⟨1, 2, 3⟩] :=
  (C3_send_gate ⟨.Overflown, []⟩ 1 2 3).2 (by decide)

/-! ## Claim C4: the mark bit -/

/-- C4 counterexample: a frame whose last descriptor is oversized (2000 >
1500) emits exactly one packet, and its mark bit is false — no packet of
the frame is marked, refuting "exactly one packet per frame has the mark
bit set". -/
theorem C4_mark_cex :
    ((onMediaFrame testConfig freshBridge 0 skipFrame).2.map RTPPacket.mark
        = [false])
    ∧ (onMediaFrame testConfig freshBridge 0 skipFrame).2.length = 1 := by
  decide

/-- C4 (amended): the mark bit is set exactly on the packet generated from
the frame's last descriptor; hence whenever the last descriptor fits (its
declared total length is at most the payload capacity), the emission list
for a frame of supported type ends with a marked packet and every earlier
packet of the frame is unmarked (so exactly one packet is marked, the last
one). If the last descriptor is skipped as oversized, no emitted packet of
the frame carries the mark. -/
theorem C4_mark_last (cfg : BridgeConfig) (s : BridgeState) (now : Nat)
    (f : MediaFrame) (rate : Nat) (hrate : rateOf f.type = some rate)
    (hinfo : f.info ≠ [])
    (hfit : (f.info.getLast?.all
        fun r => decide (r.GetTotalLength ≤ cfg.maxMediaLength)) = true) :
    ∃ front lastP, (onMediaFrame cfg s now f).2 = front ++ [lastP]
      ∧ lastP.mark = true ∧ ∀ p ∈ front, p.mark = false := by
  have hinfo' : f.HasRtpPacketizationInfo = true := by
    unfold MediaFrame.HasRtpPacketizationInfo
    simp [hinfo]
  rw [onMediaFrame_run cfg s now f rate hinfo' hrate]
  exact packetize_mark cfg f rate f.info _ hinfo hfit

/-- C4 witness: a two-descriptor frame whose descriptors both fit has a
single marked packet, the last one. -/
theorem C4_mark_last_w :
    ∃ front lastP,
      (onMediaFrame testConfig freshBridge 0 markFrame).2 = front ++ [lastP]
      ∧ lastP.mark = true ∧ ∀ p ∈ front, p.mark = false :=
  C4_mark_last testConfig freshBridge 0 markFrame 90 rfl (by decide) (by decide)

/-! ## Claim C5: EAGAIN handling in the send drain -/

/-- C5 counterexample: in Lagging state, a sendto failing with EAGAIN does
not retain the current entry — the drain falls through to the dequeue,
dropping it (and here the next entry too), leaving nothing pending. -/
theorem C5_eagain_cex :
    (EventLoop.drainSending .Lagging (fun _ => .err .EAGAIN)
        (some ⟨1, 1, 1⟩) [⟨2, 2, 2⟩]).pendingItem = none
    ∧ (⟨1, 1, 1⟩ : EventLoop.SendBuffer)
        ∈ (EventLoop.drainSending .Lagging (fun _ => .err .EAGAIN)
            (some ⟨1, 1, 1⟩) [⟨2, 2, 2⟩]).dropped := by
  decide

/-- C5 (amended): an entry whose sendto fails with EAGAIN/EWOULDBLOCK is
retained for the next iteration only while the backpressure state is
Normal (the drain then stops, leaving the queue untouched and dropping
nothing); in any other state (Lagging or Overflown) the failed entry is
dropped and draining continues. -/
theorem C5_eagain_normal_only (st : EventLoop.State)
    (res : Nat → EventLoop.SendResult) (item : EventLoop.SendBuffer)
    (queue : List EventLoop.SendBuffer) (k : Nat)
    (h : res k = .err .EAGAIN ∨ res k = .err .EWOULDBLOCK) :
    (st = .Normal →
      EventLoop.drainGo st res item queue k = ⟨some item, queue, [], []⟩)
    ∧ (st ≠ .Normal →
      item ∈ (EventLoop.drainGo st res item queue k).dropped) := by
  constructor
  · intro hst
    subst hst
    cases queue with
    | nil => rcases h with h | h <;> simp [EventLoop.drainGo, h]
    | cons a t => rcases h with h | h <;> simp [EventLoop.drainGo, h]
  · intro hst
    cases queue with
    | nil => rcases h with h | h <;> simp [EventLoop.drainGo, h, hst]
    | cons a t => rcases h with h | h <;> simp [EventLoop.drainGo, h, hst]

/-- C5 witness: in Normal state an EAGAIN failure retains the entry and
leaves the queue alone. -/
theorem C5_eagain_normal_only_w :
    EventLoop.drainGo .Normal (fun _ => .err .EAGAIN) ⟨7, 8, 9⟩ [⟨1, 1, 1⟩] 0
      = ⟨some ⟨7, 8, 9⟩, [⟨1, 1, 1⟩], [], []⟩ :=
  (C5_eagain_normal_only .Normal (fun _ => .err .EAGAIN) ⟨7, 8, 9⟩ [⟨1, 1, 1⟩] 0
    (Or.inl rfl)).1 rfl

/-! ## Claim C6: strict timestamp progress across a reset -/

/-- C6: across a reset boundary, when a previous packet exists (lastTime =
t0 > 0, pre-reset last_timestamp L) and the first post-reset frame emits
at least one packet, the produced pre-rate timestamp is at least L + 1 —
strict progress even when the frame arrives in the same wall-clock
millisecond as the previous packet. -/
theorem C6_reset_progress (cfg : BridgeConfig) (s : BridgeState) (now : Nat)
    (f : MediaFrame) (hreset : s.reset = true) (hlast : s.lastTime ≠ 0)
    (hne : (onMediaFrame cfg s now f).2 ≠ []) :
    s.lastTimestamp + 1 ≤ (onMediaFrame cfg s now f).1.lastTimestamp := by
  cases hr : rateOf f.type with
  | none => exact absurd (onMediaFrame_empty_cases cfg s now f (Or.inr hr)) hne
  | some rate =>
    rw [onMediaFrame_after_reset cfg s now f rate hreset hlast hr hne]
    omega

/-- C6 witness: the post-reset frame arrives at the very millisecond of the
previous packet (now = lastTime = 100), and the produced timestamp still
advances past L = 3000. -/
theorem C6_reset_progress_w :
    resetBridge.lastTimestamp + 1
      ≤ (onMediaFrame testConfig resetBridge 100 resetFrame).1.lastTimestamp :=
  C6_reset_progress testConfig resetBridge 100 resetFrame rfl (by decide) (by decide)

/-! ## Claim C7: the fresh bridge's first packet -/

/-- C7 counterexample: the fresh bridge fed a video frame with source
timestamp 1000 and one 500-byte descriptor emits one packet with ext_seq 0
and mark true, but its wire timestamp is 0, not 1000 * 90 = 90000: the
first frame opens the segment (first_timestamp := 1000), so the packet's
pre-rate timestamp is base 0 + (1000 - 1000) = 0. -/
theorem C7_first_packet_cex :
    ((onMediaFrame testConfig freshBridge 0 firstFrame).2.map
        fun p => (p.extSeqNum, p.timestamp, p.mark)) = [(0, 0, true)]
    ∧ (0 : Nat) ≠ 1000 * 90 := by
  decide

/-- C7 (amended): a freshly constructed bridge fed one video frame with
source timestamp 1000 and a single 500-byte descriptor produces exactly
one packet, with wire sequence number 0, wire timestamp 0 (the frame opens
the segment, so its offset from first_timestamp is 0 and the base is 0)
and mark bit true; the pre-rate last_timestamp is 0 as well. -/
theorem C7_first_packet :
    ((onMediaFrame testConfig freshBridge 0 firstFrame).2.map
        fun p => (p.seqNum, p.timestamp, p.mark)) = [(0, 0, true)]
    ∧ (onMediaFrame testConfig freshBridge 0 firstFrame).2.length = 1
    ∧ (onMediaFrame testConfig freshBridge 0 firstFrame).1.lastTimestamp = 0 := by
  decide

/-! ## Claim C8: Stop() drains the task queue -/

/-- A task absent from the queue is never resolved by the drain. -/
theorem drainTasks_count_zero (t : Nat) :
    ∀ q : List Nat, t ∉ q →
      (EventLoop.drainPendingTasks q).count (EventLoop.TaskEvent.setValue t) = 0 := by
  intro q
  induction q with
  | nil => intro _; rfl
  | cons h rest ih =>
    intro hmem
    have hne : ¬ t = h := fun he => hmem (by rw [he]; exact List.mem_cons_self h rest)
    have hrest : t ∉ rest := fun hr => hmem (List.mem_cons_of_mem h hr)
    rw [EventLoop.drainPendingTasks]
    simp [List.count_cons, ih hrest, hne]

/-- C8: every task on the queue when the loop exits is executed and has its
completion promise resolved exactly once by the post-exit drain (which
runs before Stop()'s join returns): its setValue event occurs exactly
once, immediately preceded by its run event. -/
theorem C8_stop_drains : ∀ (q : List Nat) (t : Nat), q.Nodup → t ∈ q →
    (EventLoop.drainPendingTasks q).count (EventLoop.TaskEvent.setValue t) = 1
    ∧ ∃ pre post, EventLoop.drainPendingTasks q
        = pre ++ EventLoop.TaskEvent.run t :: EventLoop.TaskEvent.setValue t :: post := by
  intro q
  induction q with
  | nil => intro t _ hmem; cases hmem
  | cons h rest ih =>
    intro t hnd hmem
    rcases List.mem_cons.mp hmem with rfl | hmem'
    · have hnotin : t ∉ rest := (List.nodup_cons.mp hnd).1
      constructor
      · rw [EventLoop.drainPendingTasks]
        simp [List.count_cons, drainTasks_count_zero t rest hnotin]
      · exact ⟨[], EventLoop.drainPendingTasks rest, rfl⟩
    · have hnd' : rest.Nodup := (List.nodup_cons.mp hnd).2
      have hne : ¬ t = h := fun he => (List.nodup_cons.mp hnd).1 (by rw [← he]; exact hmem')
      obtain ⟨hc, pre, post, heq⟩ := ih t hnd' hmem'
      constructor
      · rw [EventLoop.drainPendingTasks]
        simp [List.count_cons, hc, hne]
      · exact ⟨EventLoop.TaskEvent.run h :: EventLoop.TaskEvent.setValue h :: pre, post, by
          rw [EventLoop.drainPendingTasks, heq]
          rfl⟩

/-- C8 witness: draining the two-task queue [10, 20] resolves task 20
exactly once. -/
theorem C8_stop_drains_w :
    (EventLoop.drainPendingTasks [10, 20]).count (EventLoop.TaskEvent.setValue 20) = 1 :=
  (C8_stop_drains [10, 20] 20 (by decide) (by decide)).1

/-! ## Claim C9: a frame without packetization info is a no-op -/

/-- C9: onMediaFrame returns before touching any state when the frame has
no packetization info: the reset latch, every timestamp member, ext_seq
and all statistics are unchanged and no packet is emitted. -/
theorem C9_no_info_noop (cfg : BridgeConfig) (s : BridgeState) (now : Nat)
    (f : MediaFrame) (h : f.HasRtpPacketizationInfo = false) :
    onMediaFrame cfg s now f = (s, []) := by
  unfold onMediaFrame
  rw [h]
  rfl

/-- C9 witness: an info-less frame hitting a bridge with an armed reset
latch leaves the whole state (latch included) untouched. -/
theorem C9_no_info_noop_w :
    onMediaFrame testConfig resetBridge 7 noInfoFrame = (resetBridge, []) :=
  C9_no_info_noop testConfig resetBridge 7 noInfoFrame rfl

/-! ## Claim C10: skipped descriptors consume no sequence number -/

/-- C10: for a frame of supported type (and no counter wrap in this frame),
the emitted packets carry exactly the consecutive extended sequence
numbers ext_seq, ext_seq+1, ..., with no gap at a skipped slice: the
number of packets (and of increments of the counter) equals the number of
descriptors whose declared total length fits the payload capacity, and
the final counter is the initial one plus that count. -/
theorem C10_skip_no_gap (cfg : BridgeConfig) (s : BridgeState) (now : Nat)
    (f : MediaFrame) (rate : Nat) (hrate : rateOf f.type = some rate)
    (hs : s.extSeqNum + f.info.length < 4294967296) :
    ((onMediaFrame cfg s now f).2.map RTPPacket.extSeqNum
      = (List.range (onMediaFrame cfg s now f).2.length).map (fun i => s.extSeqNum + i))
    ∧ (onMediaFrame cfg s now f).1.extSeqNum
        = s.extSeqNum + (onMediaFrame cfg s now f).2.length
    ∧ (onMediaFrame cfg s now f).2.length
        = f.info.countP (fun r => decide (r.GetTotalLength ≤ cfg.maxMediaLength)) := by
  cases hinfo : f.HasRtpPacketizationInfo with
  | false =>
    have hemp : f.info = [] := by
      unfold MediaFrame.HasRtpPacketizationInfo at hinfo
      simpa using hinfo
    have h0 : onMediaFrame cfg s now f = (s, []) := by
      unfold onMediaFrame
      rw [hinfo]
      rfl
    rw [h0, hemp]
    simp
  | true =>
    rw [onMediaFrame_run cfg s now f rate hinfo hrate]
    have hext : (startSegment (updateStats (consumeReset s) now f.data.length)
        now rate f.timestamp).extSeqNum = s.extSeqNum := by
      rw [startSegment_extSeqNum, updateStats_extSeqNum, consumeReset_extSeqNum]
    have hlen := packetize_length cfg f rate f.info
      (startSegment (updateStats (consumeReset s) now f.data.length) now rate f.timestamp)
    have hK : (packetize cfg f rate f.info
        (startSegment (updateStats (consumeReset s) now f.data.length)
          now rate f.timestamp)).2.length ≤ f.info.length := by
      rw [hlen]
      exact List.countP_le_length _
    obtain ⟨h1, h2⟩ := packetize_extSeq cfg f rate f.info
      (startSegment (updateStats (consumeReset s) now f.data.length) now rate f.timestamp)
      (by rw [hext]; omega)
    rw [hext] at h1 h2
    refine ⟨?_, ?_, hlen⟩
    · rw [h1]
      apply List.map_congr_left
      intro i hi
      have hi' := List.mem_range.mp hi
      exact Nat.mod_eq_of_lt (by omega)
    · rw [h2]
      exact Nat.mod_eq_of_lt (by omega)

/-- C10 witness: the three-descriptor frame whose middle descriptor is
oversized emits two packets with consecutive sequence numbers 0 and 1, the
counter ends at 2, and the emitted count equals the count of fitting
descriptors. -/
theorem C10_skip_no_gap_w :
    ((onMediaFrame testConfig freshBridge 0 gapFrame).2.map RTPPacket.extSeqNum
      = (List.range (onMediaFrame testConfig freshBridge 0 gapFrame).2.length).map
          (fun i => freshBridge.extSeqNum + i))
    ∧ (onMediaFrame testConfig freshBridge 0 gapFrame).1.extSeqNum
        = freshBridge.extSeqNum + (onMediaFrame testConfig freshBridge 0 gapFrame).2.length
    ∧ (onMediaFrame testConfig freshBridge 0 gapFrame).2.length
        = gapFrame.info.countP
            (fun r => decide (r.GetTotalLength ≤ testConfig.maxMediaLength)) :=
  C10_skip_no_gap testConfig freshBridge 0 gapFrame 90 rfl (by decide)

end StreamServer
